import Mathlib

/-!
Verification of the `offres_emploi` API client (`src/offres_emploi/api.py`).

The client is embedded shallowly: network effects are replaced by explicit
response values passed as arguments, the mutable `self.token` field becomes an
explicit `ClientState`, and wall-clock readings (`datetime.datetime.today()`)
become explicit integer timestamps (seconds).  Exceptions raised by the Python
code become explicit error results.
-/

namespace OffresEmploi

/-! ## Constants (api.py lines 11-14) -/

def ENDPOINT_ACCESS_TOKEN : String :=
  "https://entreprise.pole-emploi.fr/connexion/oauth2/access_token"

def OFFRES_DEMPLOI_V2_BASE : String :=
  "https://api.emploi-store.fr/partenaire/offresdemploi/v2"

def REFERENTIEL_ENDPOINT : String := OFFRES_DEMPLOI_V2_BASE ++ "/referentiel"

def SEARCH_ENDPOINT : String := OFFRES_DEMPLOI_V2_BASE ++ "/offres/search"

/-! ## Data model -/

/-- The cached token (`self.token`): the fields of the token-endpoint JSON
response that the client reads, plus the custom `expires_at` field the client
adds (api.py line 112).  Timestamps are integers (seconds). -/
structure Token where
  access_token : String
  expires_at : Int
deriving Repr, DecidableEq

/-- The mutable state of an `Api` instance that the claims are about: the
cached token.  `none` models the state before the `self.token` attribute is
first assigned (`hasattr(self, "token")` is false). -/
structure ClientState where
  token : Option Token
deriving Repr, DecidableEq

/-- `requests.Response.raise_for_status` raises `HTTPError` exactly for status
codes in [400, 600) (4xx client errors and 5xx server errors). -/
def isErrorStatus (status : Nat) : Bool := decide (400 ≤ status ∧ status < 600)

/-- Abstraction of the text of the `requests.HTTPError` produced by
`raise_for_status` (`str(error)`): a string determined by the status code
("NNN Client Error ..." / "NNN Server Error ...").  The url/reason parts are
abstracted away; the claims only use this text as an opaque value. -/
def httpErrorText (status : Nat) : String :=
  toString status ++ (if status < 500 then " Client Error" else " Server Error")

/-- A response of the token endpoint, as seen by `get_token`:
the HTTP status, the `access_token` and `expires_in` JSON fields read on
success, and `bodyJson` = `str(r.json())` of the error body (`none` models a
body on which `r.json()` raises, i.e. that does not parse as JSON). -/
structure TokenResponse where
  status : Nat
  access_token : String
  expires_in : Int
  bodyJson : Option String
deriving Repr, DecidableEq

/-- Result of one `get_token` call:
`ok` = the token returned on success; `httpError` = the raised `HTTPError`
with its message; `decodeError` = the `r.json()` decode failure propagating
out of the status-400 branch. -/
inductive TokenResult where
  | ok (t : Token)
  | httpError (msg : String)
  | decodeError
deriving Repr, DecidableEq

/-- The token stored on success (api.py lines 111-115): the response fields
plus `expires_at = current_time + timedelta(seconds=expires_in)`, where
`current_time` is the timestamp taken at line 93, before the POST is issued. -/
def mkToken (currentTime : Int) (resp : TokenResponse) : Token :=
  { access_token := resp.access_token
    expires_at := currentTime + resp.expires_in }

/-- `Api.get_token` (api.py lines 72-116).  `currentTime` is the
`datetime.datetime.today()` reading of line 93, taken before the POST.
On a status in [400, 600): if the status is exactly 400 the raised error
message is `str(error) + "\n" + str(r.json())` (a decode failure of the body
propagates instead); otherwise the raw `HTTPError` is re-raised.  In both
cases `self.token` is not assigned.  Otherwise the token is built, stored in
`self.token` and returned. -/
def get_token (s : ClientState) (currentTime : Int) (resp : TokenResponse) :
    TokenResult × ClientState :=
  if isErrorStatus resp.status then
    if resp.status = 400 then
      match resp.bodyJson with
      | some body =>
          (TokenResult.httpError (httpErrorText resp.status ++ "\n" ++ body), s)
      | none => (TokenResult.decodeError, s)
    else
      (TokenResult.httpError (httpErrorText resp.status), s)
  else
    let tok := mkToken currentTime resp
    (TokenResult.ok tok, { token := some tok })

/-- `Api.is_expired` (api.py lines 118-127):
`datetime.datetime.today() >= self.token["expires_at"]`. -/
def is_expired (t : Token) (now : Int) : Bool := decide (t.expires_at ≤ now)

/-- Errors propagating out of `get_headers` when the embedded `get_token`
call raises. -/
inductive ApiError where
  | http (msg : String)
  | decode
deriving Repr, DecidableEq

/-- The `Authorization` header value built at api.py line 143:
`"Bearer {access_token}"`. -/
def authHeader (t : Token) : String := "Bearer " ++ t.access_token

/-- The refresh path shared by both branches of `get_headers` (api.py lines
134-141): run `get_token`; a raised error propagates, otherwise the freshly
stored token is the one the headers are built from (line 143 reads
`self.token` again, which `get_token` has just replaced). -/
def refreshAndHeader (s : ClientState) (now : Int) (tokResp : TokenResponse) :
    Except ApiError (Token × ClientState) :=
  match get_token s now tokResp with
  | (TokenResult.ok t, s') => Except.ok (t, s')
  | (TokenResult.httpError m, _) => Except.error (ApiError.http m)
  | (TokenResult.decodeError, _) => Except.error ApiError.decode

/-- `Api.get_headers` (api.py lines 129-145).  If no token is cached
(`not hasattr(self, "token")`) or the cached token is expired, `get_token`
runs first; the headers are then built from the (possibly fresh) cached
token.  Returns the token whose `access_token` goes into the `Authorization`
header (see `authHeader`) together with the client state after the call. -/
def get_headers (s : ClientState) (now : Int) (tokResp : TokenResponse) :
    Except ApiError (Token × ClientState) :=
  match s.token with
  | none => refreshAndHeader s now tokResp
  | some t =>
      if is_expired t now then refreshAndHeader s now tokResp
      else Except.ok (t, s)

/-! ## Helper lemmas about the token lifecycle -/

theorem get_token_ok_spec (s : ClientState) (now : Int) (resp : TokenResponse)
    (t : Token) (s' : ClientState)
    (h : get_token s now resp = (TokenResult.ok t, s')) :
    t = mkToken now resp ∧ s' = { token := some t } ∧
      isErrorStatus resp.status = false := by
  unfold get_token at h
  by_cases he : isErrorStatus resp.status
  · rw [if_pos he] at h
    by_cases h400 : resp.status = 400
    · rw [if_pos h400] at h
      cases hb : resp.bodyJson <;> rw [hb] at h <;> simp at h
    · rw [if_neg h400] at h
      simp at h
  · rw [if_neg he] at h
    simp only [Prod.mk.injEq, TokenResult.ok.injEq] at h
    exact ⟨h.1.symm, by rw [← h.2, ← h.1], by simp [he]⟩

theorem get_token_error_state (s : ClientState) (now : Int)
    (resp : TokenResponse) (he : isErrorStatus resp.status = true) :
    (get_token s now resp).2 = s := by
  unfold get_token
  rw [if_pos he]
  by_cases h400 : resp.status = 400
  · rw [if_pos h400]
    cases resp.bodyJson <;> rfl
  · rw [if_neg h400]

theorem refreshAndHeader_ok_spec (s : ClientState) (now : Int)
    (tr : TokenResponse) (t : Token) (s' : ClientState)
    (h : refreshAndHeader s now tr = Except.ok (t, s')) :
    t = mkToken now tr ∧ s' = { token := some t } := by
  unfold refreshAndHeader at h
  cases hgt : get_token s now tr with
  | mk r s2 =>
      rw [hgt] at h
      cases r with
      | ok t2 =>
          simp only [Except.ok.injEq, Prod.mk.injEq] at h
          obtain ⟨h1, h2⟩ := h
          obtain ⟨h3, h4, _⟩ := get_token_ok_spec s now tr t2 s2 hgt
          refine ⟨by rw [← h1]; exact h3, ?_⟩
          rw [← h2, h4, h1]
      | httpError m => simp at h
      | decodeError => simp at h

/-- Characterisation of a successful `get_headers` call: the token placed in
the `Authorization` header is either the cached token, still valid at the
check (`now < expires_at`), with the state untouched, or — when no token was
cached or the cached one was expired — the token freshly fetched by
`get_token` in the same call, which becomes the new cached token. -/
theorem get_headers_spec (s : ClientState) (now : Int) (tr : TokenResponse)
    (t : Token) (s' : ClientState)
    (h : get_headers s now tr = Except.ok (t, s')) :
    (s.token = some t ∧ now < t.expires_at ∧ s' = s) ∨
    ((s.token = none ∨ ∃ c, s.token = some c ∧ c.expires_at ≤ now) ∧
      t = mkToken now tr ∧ s' = { token := some t }) := by
  cases hs : s.token with
  | none =>
      simp only [get_headers, hs] at h
      obtain ⟨h3, h4⟩ := refreshAndHeader_ok_spec s now tr t s' h
      exact Or.inr ⟨Or.inl rfl, h3, h4⟩
  | some c =>
      simp only [get_headers, hs] at h
      by_cases hex : is_expired c now
      · rw [if_pos hex] at h
        obtain ⟨h3, h4⟩ := refreshAndHeader_ok_spec s now tr t s' h
        unfold is_expired at hex
        simp at hex
        exact Or.inr ⟨Or.inr ⟨c, rfl, hex⟩, h3, h4⟩
      · rw [if_neg hex] at h
        simp only [Except.ok.injEq, Prod.mk.injEq] at h
        unfold is_expired at hex
        simp at hex
        exact Or.inl ⟨by rw [h.1], h.1 ▸ hex, h.2.symm⟩

/-! ## Content-Range parsing (api.py lines 232-235)

The Python code runs
`re.search(pattern="offres (?P<first_index>\d+)-(?P<last_index>\d+)/(?P<max_results>\d+)", string=...)`
and takes `.groupdict()`.  The functions below implement `re.search` of that
fixed pattern directly: try a match at every position from the left, and at
each position match the literal `"offres "`, then a maximal nonempty digit
run, `-`, a digit run, `/`, a digit run.  (Greedy matching needs no
backtracking here because each `\d+` is followed by a non-digit literal or
the end of the pattern.  `Char.isDigit` covers ASCII digits; the header of
the target API is ASCII.)  A match yields the three captured digit strings,
exactly as `groupdict` does. -/

/-- Split a character list into its maximal digit-run prefix and the rest. -/
def digitSpan : List Char → List Char × List Char
  | [] => ([], [])
  | c :: cs =>
      if c.isDigit then
        ((c :: (digitSpan cs).1), (digitSpan cs).2)
      else
        ([], c :: cs)

/-- Drop a literal prefix, or fail. -/
def dropLit : List Char → List Char → Option (List Char)
  | [], cs => some cs
  | _ :: _, [] => none
  | p :: ps, c :: cs => if c = p then dropLit ps cs else none

/-- Try to match the pattern anchored at the current position. -/
def matchRangeAt (cs : List Char) : Option (String × String × String) :=
  match dropLit "offres ".toList cs with
  | none => none
  | some r0 =>
      match digitSpan r0 with
      | ([], _) => none
      | (d1, r1) =>
          match r1 with
          | '-' :: r2 =>
              match digitSpan r2 with
              | ([], _) => none
              | (d2, r3) =>
                  match r3 with
                  | '/' :: r4 =>
                      match digitSpan r4 with
                      | ([], _) => none
                      | (d3, _) => some (d1.asString, d2.asString, d3.asString)
                  | _ => none
          | _ => none

/-- `re.search` of the fixed pattern: leftmost match wins; `none` when the
header does not match anywhere (in the Python code this makes `re.search`
return `None` and `.groupdict()` raise `AttributeError`). -/
def searchContentRange : List Char → Option (String × String × String)
  | [] => none
  | c :: cs =>
      match matchRangeAt (c :: cs) with
      | some r => some r
      | none => searchContentRange cs

/-! ## `Api.search` (api.py lines 182-238) -/

/-- A response of the search / referentiel endpoints as the client reads it:
HTTP status; `message` = the value of `r.json()["message"]` of an error body
(`none` when the body does not parse as JSON or has no "message" key, in
which case the Python expression raises); `contentRange` = the
`Content-Range` header (`none` when absent, in which case
`r.headers["Content-Range"]` raises `KeyError`); `body` = the successful
JSON body `r.json()`, passed through opaquely. -/
structure ApiResponse where
  status : Nat
  message : Option String
  contentRange : Option String
  body : String
deriving Repr, DecidableEq

/-- Outcome of one `search` call (headers already obtained):
`ok body range` = the returned dict, i.e. `r.json()` updated with the key
"Content-Range" bound to the captured triple; `silenced` = the message
printed when `silent_http_errors` swallows an `HTTPError`, with `None`
returned; `raisedHttp` = a raised `HTTPError` with its message;
`raisedDecode` = the exception raised by `r.json()["message"]` on an
unparsable 400 body; `raisedMalformed` = the `KeyError`/`AttributeError`
raised when the `Content-Range` header is absent or unmatched (the spec
names this failure `MalformedResponseError`). -/
inductive SearchOutcome where
  | ok (body : String) (range : String × String × String)
  | silenced (logged : String)
  | raisedHttp (msg : String)
  | raisedDecode
  | raisedMalformed
deriving Repr, DecidableEq

/-- Whether the outcome is a raised exception (as opposed to a returned
value or a logged-and-swallowed error). -/
def SearchOutcome.raisesError : SearchOutcome → Bool
  | ok _ _ => false
  | silenced _ => false
  | raisedHttp _ => true
  | raisedDecode => true
  | raisedMalformed => true

/-- The body of `Api.search` after the GET returned (api.py lines 217-238).
On an error status: for status exactly 400 the message
`str(error) + "\n" + r.json()["message"]` is built first (so a body from
which no message can be extracted raises regardless of
`silent_http_errors`), then printed or raised depending on
`silent_http_errors`; for any other error status the raw error text is
printed or raised.  On success the `Content-Range` header is parsed and
merged into the returned JSON body. -/
def searchCore (resp : ApiResponse) (silent : Bool) : SearchOutcome :=
  if isErrorStatus resp.status then
    if resp.status = 400 then
      match resp.message with
      | some m =>
          let complete := httpErrorText resp.status ++ "\n" ++ m
          if silent then SearchOutcome.silenced complete
          else SearchOutcome.raisedHttp complete
      | none => SearchOutcome.raisedDecode
    else
      if silent then SearchOutcome.silenced (httpErrorText resp.status)
      else SearchOutcome.raisedHttp (httpErrorText resp.status)
  else
    match resp.contentRange with
    | none => SearchOutcome.raisedMalformed
    | some hdr =>
        match searchContentRange hdr.toList with
        | none => SearchOutcome.raisedMalformed
        | some r => SearchOutcome.ok resp.body r

/-! ## Full operations with token handling, and the dispatch trace -/

/-- The URL of a referentiel lookup (api.py line 167). -/
def referentielUrl (name : String) : String :=
  REFERENTIEL_ENDPOINT ++ "/" ++ name

/-- One dispatched HTTP request of `search`/`referentiel`: the URL, the time
of the call, the token whose `access_token` is carried in the
`Authorization` header (`authHeader bearer`), the token that was cached when
the call started, and the token-endpoint response that a refresh (if any)
consumed. -/
structure DispatchEvent where
  url : String
  now : Int
  bearer : Token
  cached : Option Token
  tokResp : TokenResponse
deriving Repr, DecidableEq

/-- `Api.search` (api.py lines 182-238) including the `get_headers` call of
line 212: a raised token-refresh error aborts the call with no request
dispatched; otherwise exactly one request is dispatched with the header
token and the response is processed by `searchCore`. -/
def searchFull (s : ClientState) (now : Int) (tokResp : TokenResponse)
    (resp : ApiResponse) (silent : Bool) :
    Except ApiError SearchOutcome × ClientState × List DispatchEvent :=
  match get_headers s now tokResp with
  | Except.error e => (Except.error e, s, [])
  | Except.ok (tok, s') =>
      (Except.ok (searchCore resp silent), s',
        [{ url := SEARCH_ENDPOINT, now := now, bearer := tok,
           cached := s.token, tokResp := tokResp }])

/-- `Api.referentiel` (api.py lines 147-180) including the `get_headers`
call of line 171: on a non-error status the parsed JSON body is returned
unchanged; on an error status the `HTTPError` is re-raised (lines 175-178). -/
def referentielFull (s : ClientState) (now : Int) (tokResp : TokenResponse)
    (name : String) (resp : ApiResponse) :
    Except ApiError String × ClientState × List DispatchEvent :=
  match get_headers s now tokResp with
  | Except.error e => (Except.error e, s, [])
  | Except.ok (tok, s') =>
      ((if isErrorStatus resp.status then
          Except.error (ApiError.http (httpErrorText resp.status))
        else Except.ok resp.body), s',
        [{ url := referentielUrl name, now := now, bearer := tok,
           cached := s.token, tokResp := tokResp }])

/-- One public operation on the client, with the response values its network
calls would observe supplied explicitly. -/
inductive Op where
  | searchOp (now : Int) (tokResp : TokenResponse) (resp : ApiResponse)
      (silent : Bool)
  | refOp (now : Int) (tokResp : TokenResponse) (name : String)
      (resp : ApiResponse)
deriving Repr, DecidableEq

/-- State transition and dispatched requests of one operation. -/
def runOp (s : ClientState) : Op → ClientState × List DispatchEvent
  | Op.searchOp now tokResp resp silent =>
      (searchFull s now tokResp resp silent).2
  | Op.refOp now tokResp name resp =>
      (referentielFull s now tokResp name resp).2

/-- Run a sequence of operations on one client, collecting every dispatched
request.  A call whose token refresh raised dispatches nothing; the caller
may go on using the client (the cached token is untouched in that case). -/
def run (s : ClientState) : List Op → ClientState × List DispatchEvent
  | [] => (s, [])
  | op :: ops =>
      let step := runOp s op
      let rest := run step.1 ops
      (rest.1, step.2 ++ rest.2)

/-- The property claim C1 asserts of every dispatched request: the bearer
token is the cached token, still valid at the `is_expired` check
(`now < expires_at`), or — because no token was cached or the cached one had
expired — the token freshly fetched by `get_token` within the same call. -/
def eventOk (e : DispatchEvent) : Prop :=
  (e.cached = some e.bearer ∧ e.now < e.bearer.expires_at) ∨
  ((e.cached = none ∨ ∃ t, e.cached = some t ∧ t.expires_at ≤ e.now) ∧
    e.bearer = mkToken e.now e.tokResp)

theorem searchFull_events_ok (s : ClientState) (now : Int)
    (tokResp : TokenResponse) (resp : ApiResponse) (silent : Bool) :
    ∀ e ∈ (searchFull s now tokResp resp silent).2.2, eventOk e := by
  intro e he
  unfold searchFull at he
  cases hgh : get_headers s now tokResp with
  | error err => rw [hgh] at he; simp at he
  | ok p =>
      cases p with
      | mk tok s' =>
          rw [hgh] at he
          simp at he
          subst he
          rcases get_headers_spec s now tokResp tok s' hgh with h | h
          · exact Or.inl ⟨h.1, h.2.1⟩
          · exact Or.inr ⟨h.1, h.2.1⟩

theorem referentielFull_events_ok (s : ClientState) (now : Int)
    (tokResp : TokenResponse) (name : String) (resp : ApiResponse) :
    ∀ e ∈ (referentielFull s now tokResp name resp).2.2, eventOk e := by
  intro e he
  unfold referentielFull at he
  cases hgh : get_headers s now tokResp with
  | error err => rw [hgh] at he; simp at he
  | ok p =>
      cases p with
      | mk tok s' =>
          rw [hgh] at he
          simp at he
          subst he
          rcases get_headers_spec s now tokResp tok s' hgh with h | h
          · exact Or.inl ⟨h.1, h.2.1⟩
          · exact Or.inr ⟨h.1, h.2.1⟩

theorem runOp_events_ok (s : ClientState) (op : Op) :
    ∀ e ∈ (runOp s op).2, eventOk e := by
  cases op with
  | searchOp now tokResp resp silent =>
      exact searchFull_events_ok s now tokResp resp silent
  | refOp now tokResp name resp =>
      exact referentielFull_events_ok s now tokResp name resp

/-! ## Retry policy (api.py lines 57-70)

`Api.__init__` mounts an `HTTPAdapter` with
`Retry(total=3, backoff_factor=1, status_forcelist=(502, 429), respect_retry_after_header=False)`
on both `http://` and `https://`, so every request going through
`self.session` (i.e. `search` and `referentiel`) is governed by it.  The
`Retry` driver itself lives in the urllib3 library, outside this repository;
it is modelled from the spec below, parameterised by the configuration the
source constructs. -/

/-- The configuration fields of `urllib3.util.retry.Retry` that
`Api.__init__` sets. -/
structure RetryConfig where
  total : Nat
  backoff_factor : Nat
  status_forcelist : List Nat
  respect_retry_after_header : Bool
deriving Repr, DecidableEq

/-- The exact `Retry` configuration built at api.py lines 58-66. -/
def apiRetry : RetryConfig :=
  { total := 3
    backoff_factor := 1
    status_forcelist := [502, 429]
    respect_retry_after_header := false }

/-- One physical HTTP attempt as the retry driver sees it: the response
status and the server-provided `Retry-After` header, if any. -/
structure Attempt where
  status : Nat
  retryAfter : Option Nat
deriving Repr, DecidableEq

/-- Modelled from the spec: the backoff delay before the n-th retry — the
base delay (`backoff_factor`) multiplied by the attempt number, not
jittered. -/
def computeBackoff (cfg : RetryConfig) (n : Nat) : Nat :=
  cfg.backoff_factor * n

/-- Outcome of the retry driver for one logical request: `done status n ds`
= the n-th physical attempt returned a non-retried status, after sleeping
the delays `ds`; `exhausted n ds` = the retry budget ran out on the n-th
attempt and the driver raises (surfaced as `HttpError` after exhaustion);
`noResponse` = the supplied response sequence ran out (no real execution
does this; it only closes the model). -/
inductive RetryOutcome where
  | done (status : Nat) (attempts : Nat) (sleeps : List Nat)
  | exhausted (attempts : Nat) (sleeps : List Nat)
  | noResponse (attempts : Nat) (sleeps : List Nat)
deriving Repr, DecidableEq

def RetryOutcome.attempts : RetryOutcome → Nat
  | done _ n _ => n
  | exhausted n _ => n
  | noResponse n _ => n

def RetryOutcome.sleeps : RetryOutcome → List Nat
  | done _ _ ds => ds
  | exhausted _ ds => ds
  | noResponse _ ds => ds

/-- Modelled from the spec: the transient-failure retry driver (urllib3
`Retry`, external to this repository).  Each response whose status is in
`status_forcelist` consumes one unit of the remaining budget and is retried
after a backoff delay — taken from the `Retry-After` header only when
`respect_retry_after_header` is set, from `computeBackoff` otherwise; a
response whose status is not in the forcelist ends the loop at once and is
handed to the caller; when a retryable status arrives with no budget left
the driver gives up and raises. -/
def retryLoop (cfg : RetryConfig) :
    List Attempt → Nat → Nat → List Nat → RetryOutcome
  | [], _, att, ds => RetryOutcome.noResponse att ds
  | a :: rest, budget, att, ds =>
      if cfg.status_forcelist.contains a.status then
        match budget with
        | 0 => RetryOutcome.exhausted (att + 1) ds
        | b + 1 =>
            let delay :=
              if cfg.respect_retry_after_header then
                a.retryAfter.getD (computeBackoff cfg (att + 1))
              else computeBackoff cfg (att + 1)
            retryLoop cfg rest b (att + 1) (ds ++ [delay])
      else
        RetryOutcome.done a.status (att + 1) ds

/-- Run one logical request against a sequence of responses under the
configured retry policy. -/
def runRetry (cfg : RetryConfig) (rs : List Attempt) : RetryOutcome :=
  retryLoop cfg rs cfg.total 0 []

/-- Erase the server-provided `Retry-After` header of an attempt. -/
def stripRetryAfter (a : Attempt) : Attempt :=
  { a with retryAfter := none }

/-! ### Retry lemmas -/

theorem retryLoop_attempts_le (cfg : RetryConfig) :
    ∀ (rs : List Attempt) (b att : Nat) (ds : List Nat),
      (retryLoop cfg rs b att ds).attempts ≤ att + b + 1 := by
  intro rs
  induction rs with
  | nil =>
      intro b att ds
      simp only [retryLoop, RetryOutcome.attempts]
      omega
  | cons a rest ih =>
      intro b att ds
      unfold retryLoop
      by_cases hf : cfg.status_forcelist.contains a.status
      · rw [if_pos hf]
        cases b with
        | zero => simp [RetryOutcome.attempts]
        | succ b' =>
            have := ih b' (att + 1) (ds ++
              [if cfg.respect_retry_after_header then
                  a.retryAfter.getD (computeBackoff cfg (att + 1))
                else computeBackoff cfg (att + 1)])
            simpa [Nat.add_assoc, Nat.add_comm, Nat.add_left_comm] using this
      · rw [if_neg hf]
        simp only [RetryOutcome.attempts]
        omega

theorem retryLoop_ignores_retryAfter (cfg : RetryConfig)
    (hcfg : cfg.respect_retry_after_header = false) :
    ∀ (rs : List Attempt) (b att : Nat) (ds : List Nat),
      retryLoop cfg (rs.map stripRetryAfter) b att ds =
        retryLoop cfg rs b att ds := by
  intro rs
  induction rs with
  | nil => intro b att ds; rfl
  | cons a rest ih =>
      intro b att ds
      simp only [List.map_cons]
      unfold retryLoop
      simp only [stripRetryAfter, hcfg, if_false]
      by_cases hf : cfg.status_forcelist.contains a.status
      · rw [if_pos hf, if_pos hf]
        cases b with
        | zero => rfl
        | succ b' => exact ih b' (att + 1) _
      · rw [if_neg hf, if_neg hf]

theorem retryLoop_done_not_retriable (cfg : RetryConfig) :
    ∀ (rs : List Attempt) (b att : Nat) (ds : List Nat)
      (st n : Nat) (ds' : List Nat),
      retryLoop cfg rs b att ds = RetryOutcome.done st n ds' →
      cfg.status_forcelist.contains st = false := by
  intro rs
  induction rs with
  | nil => intro b att ds st n ds' h; simp [retryLoop] at h
  | cons a rest ih =>
      intro b att ds st n ds' h
      unfold retryLoop at h
      by_cases hf : cfg.status_forcelist.contains a.status
      · rw [if_pos hf] at h
        cases b with
        | zero => simp at h
        | succ b' => exact ih b' (att + 1) _ st n ds' h
      · rw [if_neg hf] at h
        simp only [RetryOutcome.done.injEq] at h
        rw [← h.1]
        exact Bool.of_not_eq_true hf

theorem retryLoop_exhausted_attempts (cfg : RetryConfig) :
    ∀ (rs : List Attempt) (b att : Nat) (ds : List Nat)
      (n : Nat) (ds' : List Nat),
      retryLoop cfg rs b att ds = RetryOutcome.exhausted n ds' →
      n = att + b + 1 := by
  intro rs
  induction rs with
  | nil => intro b att ds n ds' h; simp [retryLoop] at h
  | cons a rest ih =>
      intro b att ds n ds' h
      unfold retryLoop at h
      by_cases hf : cfg.status_forcelist.contains a.status
      · rw [if_pos hf] at h
        cases b with
        | zero =>
            simp only [RetryOutcome.exhausted.injEq] at h
            omega
        | succ b' =>
            have := ih b' (att + 1) _ n ds' h
            omega
      · rw [if_neg hf] at h
        simp at h

theorem retryLoop_sleeps_backoff (cfg : RetryConfig)
    (hcfg : cfg.respect_retry_after_header = false) :
    ∀ (rs : List Attempt) (b att : Nat) (ds : List Nat),
      (∀ d ∈ ds, ∃ j, d = computeBackoff cfg j) →
      ∀ d ∈ (retryLoop cfg rs b att ds).sleeps,
        ∃ j, d = computeBackoff cfg j := by
  intro rs
  induction rs with
  | nil => intro b att ds hds; simpa [retryLoop, RetryOutcome.sleeps] using hds
  | cons a rest ih =>
      intro b att ds hds
      unfold retryLoop
      simp only [hcfg, if_false]
      by_cases hf : cfg.status_forcelist.contains a.status
      · rw [if_pos hf]
        cases b with
        | zero => simpa [RetryOutcome.sleeps] using hds
        | succ b' =>
            apply ih b' (att + 1)
            intro d hd
            rcases List.mem_append.mp hd with hd | hd
            · exact hds d hd
            · rcases List.mem_singleton.mp hd with rfl
              exact ⟨att + 1, rfl⟩
      · rw [if_neg hf]
        simpa [RetryOutcome.sleeps] using hds

theorem retryLoop_head_not_retriable (cfg : RetryConfig) (a : Attempt)
    (rest : List Attempt) (b att : Nat) (ds : List Nat)
    (hf : cfg.status_forcelist.contains a.status = false) :
    retryLoop cfg (a :: rest) b att ds =
      RetryOutcome.done a.status (att + 1) ds := by
  have hf' : a.status ∉ cfg.status_forcelist := by simpa using hf
  simp [retryLoop, hf']

/-! ## Claim theorems -/

/-- Claim C1: for every sequence of operations on one client, whenever
`search` or `referentiel` dispatches a request, the `Authorization` header it
carries was built by `get_headers` from a token that was either freshly
fetched in that same call (because no token was cached or the cached token
satisfied `now >= expires_at`) or was cached and still satisfied
`now < expires_at` at the check; a request is never sent with a token known
to be expired at the check time. -/
theorem c1_no_expired_token_dispatched :
    ∀ (s : ClientState) (ops : List Op) (e : DispatchEvent),
      e ∈ (run s ops).2 → eventOk e := by
  intro s ops
  induction ops generalizing s with
  | nil => intro e he; simp [run] at he
  | cons op rest ih =>
      intro e he
      simp only [run] at he
      rcases List.mem_append.mp he with h | h
      · exact runOp_events_ok s op e h
      · exact ih (runOp s op).1 e h

/-- Sample operation inputs for the C1 witness. -/
def c1SampleTokResp : TokenResponse :=
  { status := 200, access_token := "tok", expires_in := 100, bodyJson := none }

def c1SampleResp : ApiResponse :=
  { status := 200, message := none, contentRange := some "offres 0-0/1",
    body := "r" }

def c1SampleEvent : DispatchEvent :=
  { url := SEARCH_ENDPOINT, now := 5,
    bearer := { access_token := "tok", expires_at := 105 },
    cached := none, tokResp := c1SampleTokResp }

theorem c1_no_expired_token_dispatched_witness :
    c1SampleEvent ∈
      (run { token := none }
        [Op.searchOp 5 c1SampleTokResp c1SampleResp false]).2 ∧
    eventOk c1SampleEvent := by
  have hmem : c1SampleEvent ∈
      (run { token := none }
        [Op.searchOp 5 c1SampleTokResp c1SampleResp false]).2 := by decide
  exact ⟨hmem, c1_no_expired_token_dispatched { token := none }
    [Op.searchOp 5 c1SampleTokResp c1SampleResp false] c1SampleEvent hmem⟩

/-- Claim C2: for every successful `get_token` call, the stored token's
`expires_at` equals the timestamp taken at the start of the token request
(line 93, before the POST is issued) plus exactly `expires_in` seconds from
the response; for a response with `expires_in = 1500` issued at `t0`,
`expires_at = t0 + 1500`. -/
theorem c2_token_expiry :
    (∀ (s : ClientState) (t0 : Int) (resp : TokenResponse) (t : Token)
        (s' : ClientState),
      get_token s t0 resp = (TokenResult.ok t, s') →
      t.expires_at = t0 + resp.expires_in ∧ s'.token = some t) ∧
    (∀ t0 : Int,
      get_token { token := none } t0
          { status := 200, access_token := "abc", expires_in := 1500,
            bodyJson := none } =
        (TokenResult.ok { access_token := "abc", expires_at := t0 + 1500 },
          { token := some
              { access_token := "abc", expires_at := t0 + 1500 } })) := by
  constructor
  · intro s t0 resp t s' h
    obtain ⟨h1, h2, _⟩ := get_token_ok_spec s t0 resp t s' h
    exact ⟨by rw [h1]; rfl, by rw [h2]⟩
  · intro t0; rfl

theorem c2_token_expiry_witness :
    get_token { token := none } 0
        { status := 200, access_token := "a", expires_in := 1500,
          bodyJson := none } =
      (TokenResult.ok { access_token := "a", expires_at := 1500 },
        { token := some { access_token := "a", expires_at := 1500 } }) ∧
    ({ access_token := "a", expires_at := 1500 } : Token).expires_at =
        0 + 1500 ∧
    ({ token := some { access_token := "a", expires_at := 1500 } }
        : ClientState).token =
      some { access_token := "a", expires_at := 1500 } := by
  have h : get_token { token := none } 0
      { status := 200, access_token := "a", expires_in := 1500,
        bodyJson := none } =
      (TokenResult.ok { access_token := "a", expires_at := 1500 },
        { token := some { access_token := "a", expires_at := 1500 } }) := by
    decide
  exact ⟨h, (c2_token_expiry.1 _ 0 _ _ _ h).1, (c2_token_expiry.1 _ 0 _ _ _ h).2⟩

/-- Claim C3: for every request through the client's session, statuses 429
and 502 are retried up to 3 retries after the initial attempt (at most 4
physical attempts) with the client's own computed backoff, never honouring a
server-provided Retry-After header; every other status ends the retry loop
at its first occurrence and is handed on unchanged.  The two spec scenarios:
responses [502, 502, 200] give exactly 3 attempts returning the 200, and
[429, 429, 429, 429] gives 4 attempts and exhaustion. -/
theorem c3_retry_policy :
    ∀ rs : List Attempt,
      (runRetry apiRetry rs).attempts ≤ 4 ∧
      runRetry apiRetry (rs.map stripRetryAfter) = runRetry apiRetry rs ∧
      (∀ d ∈ (runRetry apiRetry rs).sleeps,
        ∃ j, d = computeBackoff apiRetry j) ∧
      (∀ n ds, runRetry apiRetry rs = RetryOutcome.exhausted n ds → n = 4) ∧
      (∀ st n ds, runRetry apiRetry rs = RetryOutcome.done st n ds →
        apiRetry.status_forcelist.contains st = false) ∧
      (∀ a rest, rs = a :: rest →
        apiRetry.status_forcelist.contains a.status = false →
        runRetry apiRetry rs = RetryOutcome.done a.status 1 []) ∧
      runRetry apiRetry
          [{ status := 502, retryAfter := none },
           { status := 502, retryAfter := none },
           { status := 200, retryAfter := none }] =
        RetryOutcome.done 200 3 [1, 2] ∧
      runRetry apiRetry
          [{ status := 429, retryAfter := some 99 },
           { status := 429, retryAfter := some 99 },
           { status := 429, retryAfter := some 99 },
           { status := 429, retryAfter := some 99 }] =
        RetryOutcome.exhausted 4 [1, 2, 3] := by
  intro rs
  refine ⟨?_, ?_, ?_, ?_, ?_, ?_, by decide, by decide⟩
  · have := retryLoop_attempts_le apiRetry rs apiRetry.total 0 []
    simpa [runRetry, apiRetry] using this
  · exact retryLoop_ignores_retryAfter apiRetry rfl rs apiRetry.total 0 []
  · exact retryLoop_sleeps_backoff apiRetry rfl rs apiRetry.total 0 []
      (by simp)
  · intro n ds h
    have := retryLoop_exhausted_attempts apiRetry rs apiRetry.total 0 [] n ds h
    simpa [apiRetry] using this
  · intro st n ds h
    exact retryLoop_done_not_retriable apiRetry rs apiRetry.total 0 [] st n ds h
  · intro a rest hrs hf
    rw [hrs]
    exact retryLoop_head_not_retriable apiRetry a rest apiRetry.total 0 [] hf

theorem c3_retry_policy_witness :
    apiRetry.status_forcelist.contains 404 = false ∧
    runRetry apiRetry [{ status := 404, retryAfter := none }] =
      RetryOutcome.done 404 1 [] := by
  refine ⟨by decide, ?_⟩
  exact (c3_retry_policy [{ status := 404, retryAfter := none }]).2.2.2.2.2.1
    { status := 404, retryAfter := none } [] rfl (by decide)

/-- Numeric value of a captured digit run (the integer a capture such as
"19" denotes). -/
def digitsToNat (cs : List Char) : Nat :=
  cs.foldl (fun acc c => 10 * acc + (c.toNat - 48)) 0

/-- Claim C4: for every successful search response whose Content-Range
header matches the pattern, the returned structure's range field is the
triple of the three captured digit runs; for the header "offres 0-19/134"
the captures are "0", "19", "134", whose integer values are 0, 19, 134. -/
theorem c4_content_range_parsed :
    (∀ (resp : ApiResponse) (silent : Bool) (hdr a b c : String),
        isErrorStatus resp.status = false →
        resp.contentRange = some hdr →
        searchContentRange hdr.toList = some (a, b, c) →
        searchCore resp silent = SearchOutcome.ok resp.body (a, b, c)) ∧
    searchContentRange "offres 0-19/134".toList =
      some ("0", "19", "134") ∧
    digitsToNat "0".toList = 0 ∧ digitsToNat "19".toList = 19 ∧
    digitsToNat "134".toList = 134 := by
  refine ⟨?_, by decide, by decide, by decide, by decide⟩
  intro resp silent hdr a b c herr hcr hm
  have hm' : searchContentRange hdr.data = some (a, b, c) := hm
  simp [searchCore, herr, hcr, hm']

def c4SampleResp : ApiResponse :=
  { status := 200, message := none,
    contentRange := some "offres 0-19/134", body := "B" }

theorem c4_content_range_parsed_witness :
    isErrorStatus 200 = false ∧
    searchCore c4SampleResp false = SearchOutcome.ok "B" ("0", "19", "134") := by
  refine ⟨by decide, ?_⟩
  exact c4_content_range_parsed.1 c4SampleResp
    false "offres 0-19/134" "0" "19" "134" (by decide) rfl (by decide)

/-- Claim C5: for every successful (non-error status) search response whose
Content-Range header is absent or does not match the fixed pattern anywhere,
`search` does not return a result but fails (the KeyError/AttributeError the
spec names MalformedResponseError), regardless of the silent-errors flag. -/
theorem c5_malformed_range :
    (∀ (resp : ApiResponse) (silent : Bool),
        isErrorStatus resp.status = false →
        (resp.contentRange = none ∨
          ∃ hdr, resp.contentRange = some hdr ∧
            searchContentRange hdr.toList = none) →
        searchCore resp silent = SearchOutcome.raisedMalformed ∧
          (searchCore resp silent).raisesError = true) ∧
    searchContentRange "bytes 0-19/134".toList = none ∧
    searchContentRange "offres a-b/c".toList = none := by
  refine ⟨?_, by decide, by decide⟩
  intro resp silent herr hbad
  rcases hbad with hbad | ⟨hdr, hcr, hm⟩
  · constructor <;> simp [searchCore, herr, hbad, SearchOutcome.raisesError]
  · have hm' : searchContentRange hdr.data = none := hm
    constructor <;>
      simp [searchCore, herr, hcr, hm', SearchOutcome.raisesError]

def c5SampleResp : ApiResponse :=
  { status := 200, message := none, contentRange := none, body := "" }

theorem c5_malformed_range_witness :
    isErrorStatus 200 = false ∧
    searchCore c5SampleResp true = SearchOutcome.raisedMalformed := by
  refine ⟨by decide, ?_⟩
  exact (c5_malformed_range.1 c5SampleResp true (by decide) (Or.inl rfl)).1

/-- Claim C9: if a `get_token` call fails (the token endpoint returned an
error status, so an exception is raised), the cached token field is left
exactly as it was before the call; the cache is replaced only on a
successful refresh. -/
theorem c9_cache_preserved_on_failure :
    ∀ (s : ClientState) (now : Int) (resp : TokenResponse),
      isErrorStatus resp.status = true →
      (get_token s now resp).2 = s ∧
        ∀ t, (get_token s now resp).1 ≠ TokenResult.ok t := by
  intro s now resp he
  refine ⟨get_token_error_state s now resp he, ?_⟩
  intro t hok
  have hp : get_token s now resp =
      (TokenResult.ok t, (get_token s now resp).2) := by
    rw [← hok]
  obtain ⟨_, _, hfalse⟩ := get_token_ok_spec s now resp t _ hp
  rw [he] at hfalse
  exact Bool.noConfusion hfalse

theorem c9_cache_preserved_on_failure_witness :
    isErrorStatus 500 = true ∧
    (get_token { token := some { access_token := "old", expires_at := 50 } }
        7 { status := 500, access_token := "", expires_in := 0,
            bodyJson := none }).2 =
      { token := some { access_token := "old", expires_at := 50 } } := by
  refine ⟨by decide, ?_⟩
  exact (c9_cache_preserved_on_failure
    { token := some { access_token := "old", expires_at := 50 } } 7
    { status := 500, access_token := "", expires_in := 0, bodyJson := none }
    (by decide)).1

/-- Claim C10: calling `referentiel` with a valid cached token and a
successful server response returns the decoded body and leaves the client
state unchanged, so two calls with the identical name, valid cached token
and identical successful responses yield identical output values. -/
theorem c10_referentiel_deterministic :
    ∀ (s : ClientState) (t : Token) (now1 now2 : Int)
      (tr1 tr2 : TokenResponse) (name : String) (resp : ApiResponse),
      s.token = some t → now1 < t.expires_at → now2 < t.expires_at →
      isErrorStatus resp.status = false →
      (referentielFull s now1 tr1 name resp).1 = Except.ok resp.body ∧
      (referentielFull s now1 tr1 name resp).2.1 = s ∧
      (referentielFull s now1 tr1 name resp).1 =
        (referentielFull s now2 tr2 name resp).1 := by
  intro s t now1 now2 tr1 tr2 name resp hs h1 h2 herr
  have hle1 : ¬ t.expires_at ≤ now1 := not_le.mpr h1
  have hle2 : ¬ t.expires_at ≤ now2 := not_le.mpr h2
  have hgh1 : get_headers s now1 tr1 = Except.ok (t, s) := by
    simp [get_headers, hs, is_expired, hle1]
  have hgh2 : get_headers s now2 tr2 = Except.ok (t, s) := by
    simp [get_headers, hs, is_expired, hle2]
  have hr1 : (referentielFull s now1 tr1 name resp).1 = Except.ok resp.body ∧
      (referentielFull s now1 tr1 name resp).2.1 = s := by
    unfold referentielFull
    rw [hgh1]
    simp [herr]
  have hr2 : (referentielFull s now2 tr2 name resp).1 = Except.ok resp.body := by
    unfold referentielFull
    rw [hgh2]
    simp [herr]
  exact ⟨hr1.1, hr1.2, by rw [hr1.1, hr2]⟩

theorem c10_referentiel_deterministic_witness :
    ({ token := some { access_token := "tk", expires_at := 100 } }
        : ClientState).token =
      some { access_token := "tk", expires_at := 100 } ∧
    (3 : Int) < 100 ∧ (4 : Int) < 100 ∧ isErrorStatus 200 = false ∧
    (referentielFull
        { token := some { access_token := "tk", expires_at := 100 } } 3
        { status := 200, access_token := "", expires_in := 0,
          bodyJson := none }
        "themes"
        { status := 200, message := none, contentRange := none,
          body := "refdata" }).1 =
      Except.ok "refdata" := by
  refine ⟨rfl, by decide, by decide, by decide, ?_⟩
  exact (c10_referentiel_deterministic
    { token := some { access_token := "tk", expires_at := 100 } }
    { access_token := "tk", expires_at := 100 } 3 4
    { status := 200, access_token := "", expires_in := 0, bodyJson := none }
    { status := 200, access_token := "", expires_in := 0, bodyJson := none }
    "themes"
    { status := 200, message := none, contentRange := none, body := "refdata" }
    rfl (by decide) (by decide) (by decide)).1

/-- Claim C6 counterexample: the claim says every 400-class (4xx) search
error surfaces the HTTP error text concatenated with the JSON body's message
field, with a fallback to the raw HTTP text when JSON parsing fails.  The
code enriches only status exactly 400: a 404 with a perfectly good message
body surfaces the raw HTTP text alone (not the concatenation), and a 400
whose body yields no message raises the decode error instead of falling
back to the raw HTTP text. -/
theorem c6_counterexample :
    searchCore
        { status := 404, message := some "invalid filter",
          contentRange := none, body := "" } false =
      SearchOutcome.raisedHttp (httpErrorText 404) ∧
    httpErrorText 404 ≠ httpErrorText 404 ++ "\n" ++ "invalid filter" ∧
    searchCore
        { status := 400, message := none, contentRange := none,
          body := "" } false =
      SearchOutcome.raisedDecode ∧
    SearchOutcome.raisedDecode ≠
      SearchOutcome.raisedHttp (httpErrorText 400) := by
  exact ⟨by decide, by decide, by decide, by decide⟩

/-- Claim C6 as amended: only a search call answered with status exactly 400
surfaces, raised or logged, the concatenation of the generic HTTP error
text, a newline and the message field extracted from the JSON error body;
when the message cannot be extracted (body not JSON or no message key) the
extraction failure propagates as an exception — there is no fallback to the
raw HTTP text; every other error status surfaces the raw HTTP error text
alone. -/
theorem c6_error_enrichment_amended :
    ∀ (resp : ApiResponse) (silent : Bool),
      (∀ m, resp.status = 400 → resp.message = some m →
        searchCore resp silent =
          (if silent then
            SearchOutcome.silenced (httpErrorText 400 ++ "\n" ++ m)
          else SearchOutcome.raisedHttp (httpErrorText 400 ++ "\n" ++ m))) ∧
      (resp.status = 400 → resp.message = none →
        searchCore resp silent = SearchOutcome.raisedDecode) ∧
      (isErrorStatus resp.status = true → resp.status ≠ 400 →
        searchCore resp silent =
          (if silent then SearchOutcome.silenced (httpErrorText resp.status)
          else SearchOutcome.raisedHttp (httpErrorText resp.status))) := by
  intro resp silent
  refine ⟨?_, ?_, ?_⟩
  · intro m h400 hm
    cases silent <;> simp [searchCore, h400, hm, isErrorStatus]
  · intro h400 hm
    cases silent <;> simp [searchCore, h400, hm, isErrorStatus]
  · intro herr hne
    cases silent <;> simp [searchCore, herr, hne]

def c6SampleResp : ApiResponse :=
  { status := 400, message := some "invalid filter", contentRange := none,
    body := "" }

theorem c6_error_enrichment_amended_witness :
    searchCore c6SampleResp false =
      SearchOutcome.raisedHttp (httpErrorText 400 ++ "\n" ++ "invalid filter") := by
  have h := (c6_error_enrichment_amended c6SampleResp false).1
    "invalid filter" rfl rfl
  simpa using h

/-- Claim C7 counterexample: the claim says every 4xx `get_token` failure
surfaces both the HTTP error detail and the parsed JSON response body.  The
code does so only for status exactly 400: a 401 with a JSON body surfaces
the raw HTTP error alone. -/
theorem c7_counterexample :
    (get_token { token := none } 0
        { status := 401, access_token := "", expires_in := 0,
          bodyJson := some "denied" }).1 =
      TokenResult.httpError (httpErrorText 401) ∧
    httpErrorText 401 ≠ httpErrorText 401 ++ "\n" ++ "denied" := by
  exact ⟨by decide, by decide⟩

/-- Claim C7 as amended: a `get_token` call answered with status exactly 400
whose body parses as JSON surfaces the HTTP error detail concatenated with
the parsed body (a body that fails to parse makes the decode failure
propagate instead); every other error status (401-599 and the rest of
[400, 600)) surfaces the raw HTTP error unchanged. -/
theorem c7_token_error_amended :
    ∀ (s : ClientState) (now : Int) (resp : TokenResponse),
      (∀ b, resp.status = 400 → resp.bodyJson = some b →
        get_token s now resp =
          (TokenResult.httpError (httpErrorText 400 ++ "\n" ++ b), s)) ∧
      (resp.status = 400 → resp.bodyJson = none →
        get_token s now resp = (TokenResult.decodeError, s)) ∧
      (isErrorStatus resp.status = true → resp.status ≠ 400 →
        get_token s now resp =
          (TokenResult.httpError (httpErrorText resp.status), s)) := by
  intro s now resp
  refine ⟨?_, ?_, ?_⟩
  · intro b h400 hb
    simp [get_token, h400, hb, isErrorStatus]
  · intro h400 hb
    simp [get_token, h400, hb, isErrorStatus]
  · intro herr hne
    simp [get_token, herr, hne]

theorem c7_token_error_amended_witness :
    get_token { token := none } 0
        { status := 400, access_token := "", expires_in := 0,
          bodyJson := some "bad scope" } =
      (TokenResult.httpError (httpErrorText 400 ++ "\n" ++ "bad scope"),
        { token := none }) := by
  exact (c7_token_error_amended { token := none } 0
    { status := 400, access_token := "", expires_in := 0,
      bodyJson := some "bad scope" }).1 "bad scope" rfl rfl

/-- Claim C8 counterexample: the claim says that with silent-error mode
enabled no error is ever raised for an HTTP failure.  A 400 response whose
body yields no message raises the extraction failure even in silent mode,
because the enriched message is computed before the silent flag is
consulted. -/
theorem c8_counterexample :
    (searchCore
        { status := 400, message := none, contentRange := none, body := "" }
        true).raisesError = true ∧
    searchCore
        { status := 400, message := none, contentRange := none, body := "" }
        true =
      SearchOutcome.raisedDecode := by
  exact ⟨by decide, by decide⟩

/-- Claim C8 as amended: with silent-error mode enabled, an HTTP-level
failure is logged and no result is returned and no error is raised —
except when the failure is a 400 whose error body yields no message field,
in which case the extraction failure is raised even in silent mode; with
silent-error mode disabled every HTTP-level failure raises, so no error is
silently dropped outside the opt-in. -/
theorem c8_silent_mode_amended :
    ∀ resp : ApiResponse,
      isErrorStatus resp.status = true →
      ((resp.status = 400 → resp.message.isSome) →
        ∃ m, searchCore resp true = SearchOutcome.silenced m) ∧
      (searchCore resp false).raisesError = true := by
  intro resp herr
  constructor
  · intro hmsg
    by_cases h400 : resp.status = 400
    · cases homsg : resp.message with
      | none =>
          have := hmsg h400
          rw [homsg] at this
          simp at this
      | some m =>
          exact ⟨httpErrorText 400 ++ "\n" ++ m,
            by simp [searchCore, herr, h400, homsg, isErrorStatus]⟩
    · exact ⟨httpErrorText resp.status,
        by simp [searchCore, herr, h400]⟩
  · by_cases h400 : resp.status = 400
    · cases homsg : resp.message with
      | none =>
          simp [searchCore, herr, h400, homsg, isErrorStatus,
            SearchOutcome.raisesError]
      | some m =>
          simp [searchCore, herr, h400, homsg, isErrorStatus,
            SearchOutcome.raisesError]
    · simp [searchCore, herr, h400, SearchOutcome.raisesError]

def c8SampleResp : ApiResponse :=
  { status := 502, message := none, contentRange := none, body := "" }

theorem c8_silent_mode_amended_witness :
    isErrorStatus 502 = true ∧
    (∃ m, searchCore c8SampleResp true = SearchOutcome.silenced m) ∧
    (searchCore c8SampleResp false).raisesError = true := by
  refine ⟨by decide, ?_, ?_⟩
  · exact (c8_silent_mode_amended c8SampleResp (by decide)).1
      (fun h => absurd h (by decide))
  · exact (c8_silent_mode_amended c8SampleResp (by decide)).2

end OffresEmploi
